import Mathlib

/-!
Verification development for the continuous-computation subsystem of the
oppia repository (generic job lifecycle manager, batch map/reduce jobs,
and the two-generation realtime layer protocol).

The subsystem's implementation module `core/jobs.py` is not present under
`src/`; only its test module `src/core/jobs_test.py` is.  The definitions
below are therefore modelled from the specification, except where the
tests in `src/core/jobs_test.py` (which are repository code and hence
authoritative) pin down concrete behavior; every such place is noted in
the doc comment of the definition concerned.  The mock computation
embedded here is `StartExplorationEventCounter` from the test module,
whose `_handle_incoming_event` and `get_count` bodies are in `src/`.
-/

namespace OppiaJobs

/-- Status of a continuous computation record
(`CONTINUOUS_COMPUTATION_STATUS_CODE_*` in the data model). -/
inductive CCStatus
  | idle
  | running
  | stopping
deriving DecidableEq

/-- A record of the realtime layer store: one per (layer index, target
entity id) pair.  Fields follow `MockStartExplorationRealtimeModel` in
`src/core/jobs_test.py` (an `id` string, a `realtime_layer`, and the
computation-specific aggregate field `count`). -/
structure RealtimeLayerEntry where
  id : String
  realtime_layer : Nat
  count : Nat
deriving DecidableEq

/-- Modelled from the spec: `get_realtime_id` of
`BaseRealtimeDatastoreClassForContinuousComputations` (not under `src/`)
builds the id of the entry for `entity_id` in layer `layer`, of the
documented form layer-index, colon, target entity id. -/
def get_realtime_id (layer : Nat) (entity_id : String) : String :=
  toString layer ++ ":" ++ entity_id

/-- Modelled from the spec: the validity check performed by the realtime
datastore `get` (not under `src/`).  An id is valid when it is of the
two-part form produced by `get_realtime_id` for one of the two layer
indices (the spec's layer index domain is 0 or 1): the numeral of the
layer index, a colon, and an arbitrary target entity id.  The test
`test_cannot_get_entity_with_invalid_id` pins the failure message. -/
def is_valid_realtime_id (s : String) : Bool :=
  (s.data.take 2 == ['0', ':']) || (s.data.take 2 == ['1', ':'])

/-- Modelled from the spec: the realtime datastore `get` (not under
`src/`).  Fetching with an id not of the two-part form fails with a
`ValueError`; otherwise the entry is looked up (`strict=False`: a missing
entry yields `none` rather than an error). -/
def rt_get (store : List RealtimeLayerEntry) (entity_id : String) :
    Except String (Option RealtimeLayerEntry) :=
  if is_valid_realtime_id entity_id then
    Except.ok (store.find? (fun x => x.id == entity_id))
  else
    Except.error ("Invalid realtime id: " ++ entity_id)

/-- Modelled from the spec: the realtime datastore `put` (not under
`src/`).  The spec's invariant is that an entry's id must equal the
two-part form for the entry's own realtime layer; any mismatch is a fatal
construction error.  The test
`test_cannot_put_realtime_class_with_invalid_id` pins the failure
message.  A successful put replaces any previously stored entry with the
same id. -/
def rt_put (store : List RealtimeLayerEntry) (e : RealtimeLayerEntry) :
    Except String (List RealtimeLayerEntry) :=
  if (toString e.realtime_layer ++ ":").data.isPrefixOf e.id.data then
    Except.ok (e :: store.filter (fun x => !(x.id == e.id)))
  else
    Except.error ("Realtime layer " ++ toString e.realtime_layer ++
      " does not match realtime id " ++ e.id)

/-- Modelled from the spec: `delete_layer` (not under `src/`) deletes
every entry of the given realtime layer generation. -/
def delete_layer (layer : Nat) (store : List RealtimeLayerEntry) :
    List RealtimeLayerEntry :=
  store.filter (fun e => !(e.realtime_layer == layer))

/-- The singleton `ContinuousComputationModel` record of a computation:
status code, active realtime layer index, and the three timestamps. -/
structure ContinuousComputationModel where
  status_code : CCStatus
  active_realtime_layer_index : Fin 2
  last_started_msec : Option Nat
  last_finished_msec : Option Nat
  last_stopped_msec : Option Nat
deriving DecidableEq

/-- The other realtime layer generation (0 and 1 alternate). -/
def flip_layer (i : Fin 2) : Fin 2 :=
  if i = 0 then 1 else 0

/-- One `StartExplorationEventLogEntryModel` entity: the historical event
record a batch job maps over, with its creation timestamp. -/
structure EventLogEntry where
  exploration_id : String
  event_type : String
  created_on : Nat
deriving DecidableEq

/-- An in-flight batch job of a continuous computation, carrying the
time at which it was enqueued (its snapshot cutoff). -/
structure BatchJob where
  queued_msec : Nat
deriving DecidableEq

/-- The state touched by the `StartExplorationEventCounter` continuous
computation: its singleton record, the realtime layer store, the
authoritative aggregate store (`ExplorationAnnotationsModel` records as
pairs of id and `num_starts`), the historical event log, and the
in-flight batch job, if any. -/
structure CCState where
  name : String
  cc : ContinuousComputationModel
  realtime : List RealtimeLayerEntry
  ann_store : List (String × Nat)
  event_log : List EventLogEntry
  batch_job : Option BatchJob
deriving DecidableEq

/-- The event type counted by `StartExplorationEventCounter`
(`feconf.EVENT_TYPE_START_EXPLORATION`). -/
def EVENT_TYPE_START_EXPLORATION : String :=
  "start"

/-- Lookup in the authoritative aggregate store
(`ExplorationAnnotationsModel.get(..., strict=False)`). -/
def ann_get (store : List (String × Nat)) (k : String) : Option Nat :=
  (store.find? (fun p => p.1 == k)).map Prod.snd

/-- Upsert into the authoritative aggregate store: a put replaces the
record with the same id. -/
def ann_put (store : List (String × Nat)) (k : String) (v : Nat) :
    List (String × Nat) :=
  (k, v) :: store.filter (fun p => !(p.1 == k))

/-- Write every keyed result of a batch run into the authoritative
aggregate store. -/
def ann_put_all (store : List (String × Nat)) (xs : List (String × Nat)) :
    List (String × Nat) :=
  xs.foldl (fun acc p => ann_put acc p.1 p.2) store

/-- Modelled from the spec: `entity_created_before_job_queued` of
`BaseMapReduceJobManagerForContinuousComputations` (not under `src/`),
the helper every map function uses "to exclude entities created after the
job was enqueued": an entity belongs to the batch snapshot when it was
not created after the enqueue time. -/
def entity_created_before_job_queued (queued_msec : Nat) (e : EventLogEntry) : Bool :=
  e.created_on ≤ queued_msec

/-- The map phase of `MockStartExplorationMRJobManager` (from
`src/core/jobs_test.py`): every entity passing the cutoff check yields
the pair of its exploration id and its event type. -/
def batch_map (queued_msec : Nat) (log : List EventLogEntry) :
    List (String × String) :=
  (log.filter (entity_created_before_job_queued queued_msec)).map
    (fun e => (e.exploration_id, e.event_type))

/-- The reduce phase of `MockStartExplorationMRJobManager` (from
`src/core/jobs_test.py`): for a key, count the values that are start
events. -/
def batch_reduce_count (values : List String) : Nat :=
  (values.filter (fun v => v == EVENT_TYPE_START_EXPLORATION)).length

/-- The keyed output of one batch run: for every key produced by the map
phase, the reduce phase counts that key's start events.  The result is
the list of `ExplorationAnnotationsModel` records the job writes. -/
def batch_job_result (queued_msec : Nat) (log : List EventLogEntry) :
    List (String × Nat) :=
  let pairs := batch_map queued_msec log
  (pairs.map Prod.fst).dedup.map
    (fun k => (k, batch_reduce_count ((pairs.filter (fun p => p.1 == k)).map Prod.snd)))

/-- The id of the entry for `entity_id` in the currently active realtime
layer (`get_active_realtime_layer_id` in the source). -/
def get_active_realtime_layer_id (st : CCState) (entity_id : String) : String :=
  get_realtime_id st.cc.active_realtime_layer_index.val entity_id

/-- `StartExplorationEventCounter.get_count` (from
`src/core/jobs_test.py`): combine the last batch output for the
exploration with the entry of the active realtime layer; either part is
zero when the record is missing. -/
def get_count (st : CCState) (exploration_id : String) : Except String Nat := do
  let realtime_model ← rt_get st.realtime (get_active_realtime_layer_id st exploration_id)
  let mr_model := ann_get st.ann_store exploration_id
  let from_mr := match mr_model with
    | some n => n
    | none => 0
  let from_rt := match realtime_model with
    | some m => m.count
    | none => 0
  pure (from_mr + from_rt)

/-- `StartExplorationEventCounter._handle_incoming_event` (from
`src/core/jobs_test.py`): put an entry with `count = 1` at the id built
from the given layer and exploration id.  A put failure (impossible for
ids built by `get_realtime_id`) leaves the store unchanged. -/
def handle_incoming_event (layer : Nat) (exploration_id : String)
    (store : List RealtimeLayerEntry) : List RealtimeLayerEntry :=
  match rt_put store
      { id := get_realtime_id layer exploration_id,
        realtime_layer := layer, count := 1 } with
  | Except.ok s => s
  | Except.error _ => store

/-- Modelled from the spec: `BaseContinuousComputationManager.on_incoming_event`
(not under `src/`).  The spec's text says the event is applied only to
the active layer, but the authoritative tests in `src/core/jobs_test.py`
(`test_continuous_computation_workflow`, asserting a count of 1 in the
layer-0 and in the layer-1 entry after one event) pin that the handler is
invoked for both realtime layers, so that is what is modelled. -/
def on_incoming_event (exploration_id : String) (st : CCState) : CCState :=
  { st with realtime :=
      (handle_incoming_event 1 exploration_id
        (handle_incoming_event 0 exploration_id st.realtime)) }

/-- Modelled from the spec: `start_computation` (not under `src/`).
Starting a non-idle computation fails with the "already running" error
(message pinned by
`test_cannot_start_new_job_while_existing_job_still_running`) before any
write, leaving the state unchanged.  Otherwise the record is marked
running, the inactive realtime layer generation is cleared (pinned by
`test_continuous_computation_workflow`: after the start, the layer-0
entry is retained and the layer-1 entry has been deleted while layer 0 is
active), and the first batch job is enqueued with the current time as its
cutoff. -/
def start_computation (now_msec : Nat) (st : CCState) : CCState × Option String :=
  if st.cc.status_code = CCStatus.idle then
    let cc' := { st.cc with
      status_code := CCStatus.running,
      last_started_msec := some now_msec }
    ({ st with
        cc := cc',
        realtime := delete_layer (flip_layer cc'.active_realtime_layer_index).val st.realtime,
        batch_job := some { queued_msec := now_msec } }, none)
  else
    (st, some ("Attempted to start computation " ++ st.name ++
      ", which is already running."))

/-- Modelled from the spec: `_register_end_of_batch_job_and_return_status`
(not under `src/`): when a stop had been requested the record goes idle
and the stop time is recorded; otherwise the record is unchanged. -/
def register_end_of_batch_job (now_msec : Nat) (cc : ContinuousComputationModel) :
    ContinuousComputationModel :=
  if cc.status_code = CCStatus.stopping then
    { cc with status_code := CCStatus.idle, last_stopped_msec := some now_msec }
  else
    cc

/-- Modelled from the spec: `on_batch_job_completion` (not under
`src/`).  The batch output is written to the authoritative aggregate
store, the active realtime layer index is switched, and the generation
that was active while the batch job ran (now inactive) is deleted; the
finish time is recorded and the end of the batch job is registered.  The
switch-then-delete order is pinned by
`test_continuous_computation_workflow`: after completion the previously
active layer-0 entry is gone while queries read layer 1. -/
def on_batch_job_completion (now_msec : Nat) (st : CCState) : CCState :=
  match st.batch_job with
  | none => st
  | some job =>
    let old_active := st.cc.active_realtime_layer_index
    { st with
        cc := register_end_of_batch_job now_msec
          { st.cc with
              active_realtime_layer_index := flip_layer old_active,
              last_finished_msec := some now_msec },
        ann_store := ann_put_all st.ann_store (batch_job_result job.queued_msec st.event_log),
        realtime := delete_layer old_active.val st.realtime,
        batch_job := none }

/-- Modelled from the spec: `stop_computation` (not under `src/`)
"cancels any in-flight batch job, deletes any realtime layer entries
belonging to this computation, sets status IDLE, records
lastStoppedTime". -/
def stop_computation (now_msec : Nat) (st : CCState) : CCState :=
  { st with
      cc := { st.cc with
        status_code := CCStatus.idle,
        last_stopped_msec := some now_msec },
      realtime := [],
      batch_job := none }

/-- Severity of a log line (the tests watch `logging.error` for batch
failures and `logging.info` for batch cancellations). -/
inductive LogLevel
  | info
  | error
deriving DecidableEq

/-- A log line produced by the manager. -/
structure LogEntry where
  level : LogLevel
  message : String
deriving DecidableEq

/-- Modelled from the spec: `on_batch_job_failure` (not under `src/`)
logs the failure (message pinned by `test_failing_continuous_job`) and
registers the end of the batch job; no realtime layer is deleted. -/
def on_batch_job_failure (now_msec : Nat) (st : CCState) : CCState × LogEntry :=
  ({ st with cc := register_end_of_batch_job now_msec st.cc, batch_job := none },
   { level := LogLevel.error, message := "Job " ++ st.name ++ " failed." })

/-- Modelled from the spec: `on_batch_job_canceled` (not under `src/`)
logs the cancellation (message pinned by `test_cancelling_continuous_job`)
and registers the end of the batch job; no realtime layer is deleted. -/
def on_batch_job_canceled (now_msec : Nat) (st : CCState) : CCState × LogEntry :=
  ({ st with cc := register_end_of_batch_job now_msec st.cc, batch_job := none },
   { level := LogLevel.info, message := "Job " ++ st.name ++ " canceled." })

/-- The job manager classes of `core/jobs.py` and of the test module
that this development mentions. -/
inductive JobManagerClass
  | BaseJobManager
  | BaseMapReduceJobManager
  | BaseMapReduceOneOffJobManager
  | BaseMapReduceJobManagerForContinuousComputations
  | SampleMapReduceJobManager
  | MockStartExplorationMRJobManager
deriving DecidableEq

/-- The Python class name of a job manager class. -/
def class_name : JobManagerClass → String
  | JobManagerClass.BaseJobManager => "BaseJobManager"
  | JobManagerClass.BaseMapReduceJobManager => "BaseMapReduceJobManager"
  | JobManagerClass.BaseMapReduceOneOffJobManager => "BaseMapReduceOneOffJobManager"
  | JobManagerClass.BaseMapReduceJobManagerForContinuousComputations =>
      "BaseMapReduceJobManagerForContinuousComputations"
  | JobManagerClass.SampleMapReduceJobManager => "SampleMapReduceJobManager"
  | JobManagerClass.MockStartExplorationMRJobManager =>
      "MockStartExplorationMRJobManager"

/-- Modelled from the spec: the designated abstract manager base types
(`ABSTRACT_BASE_CLASSES` in `core/jobs.py`, not under `src/`): the types
that do not themselves implement execution. -/
def ABSTRACT_BASE_CLASSES : List JobManagerClass :=
  [JobManagerClass.BaseJobManager,
   JobManagerClass.BaseMapReduceJobManager,
   JobManagerClass.BaseMapReduceJobManagerForContinuousComputations]

/-- A persisted `JobModel` record (only the fields the claims need). -/
structure JobModel where
  id : String
  job_type : String
deriving DecidableEq

/-- Modelled from the spec: `BaseJobManager.create_new` (not under
`src/`).  Creation on a designated abstract base manager class fails
with a descriptive error naming the class (message pinned by
`test_is_abstract_method_raises_exception_for_abstract_classes`) before
any record is allocated; otherwise a fresh NEW job record is stored. -/
def create_new (cls : JobManagerClass) (new_id : String) (jobs : List JobModel) :
    List JobModel × Except String String :=
  if cls ∈ ABSTRACT_BASE_CLASSES then
    (jobs, Except.error ("Tried to directly create a job using the abstract base " ++
      "manager class " ++ class_name cls ++ ", which is not allowed."))
  else
    ({ id := new_id, job_type := class_name cls } :: jobs, Except.ok new_id)

/-- A sample idle computation state: one start event for "exp_id" already
recorded in both realtime layers (as after the event task ran), no batch
job in flight.  Used to instantiate theorems at concrete inputs. -/
def sample_idle_state : CCState :=
  { name := "StartExplorationEventCounter",
    cc := { status_code := CCStatus.idle, active_realtime_layer_index := 0,
            last_started_msec := none, last_finished_msec := none,
            last_stopped_msec := none },
    realtime := [{ id := "0:exp_id", realtime_layer := 0, count := 1 },
                 { id := "1:exp_id", realtime_layer := 1, count := 1 }],
    ann_store := [],
    event_log := [{ exploration_id := "exp_id",
                    event_type := EVENT_TYPE_START_EXPLORATION, created_on := 10 }],
    batch_job := none }

/-- A sample running computation state with a batch job in flight that was
enqueued at time 20, and entries in both realtime layer generations.
Used to instantiate theorems at concrete inputs. -/
def sample_running_state : CCState :=
  { name := "StartExplorationEventCounter",
    cc := { status_code := CCStatus.running, active_realtime_layer_index := 0,
            last_started_msec := some 20, last_finished_msec := none,
            last_stopped_msec := none },
    realtime := [{ id := "0:exp_id", realtime_layer := 0, count := 1 },
                 { id := "1:exp_id", realtime_layer := 1, count := 1 }],
    ann_store := [],
    event_log := [{ exploration_id := "exp_id",
                    event_type := EVENT_TYPE_START_EXPLORATION, created_on := 10 }],
    batch_job := some { queued_msec := 20 } }

/-- A sample running computation state with no realtime layer entries
(as right after a start on an empty store).  Used to instantiate theorems
at concrete inputs. -/
def sample_empty_state : CCState :=
  { name := "StartExplorationEventCounter",
    cc := { status_code := CCStatus.running, active_realtime_layer_index := 0,
            last_started_msec := some 20, last_finished_msec := none,
            last_stopped_msec := none },
    realtime := [],
    ann_store := [],
    event_log := [],
    batch_job := some { queued_msec := 20 } }

/-- A start-exploration event log entity for "exp_id" created at the given
time.  Used to instantiate theorems at concrete inputs. -/
def sample_event_at (created : Nat) : EventLogEntry :=
  { exploration_id := "exp_id", event_type := EVENT_TYPE_START_EXPLORATION,
    created_on := created }

theorem string_eq_of_data {s t : String} (h : s.data = t.data) : s = t := by
  cases s
  cases t
  exact congrArg String.mk h

theorem exists_append_of_isPrefixOf {p s : String}
    (h : p.data.isPrefixOf s.data = true) : ∃ t : String, s = p ++ t := by
  obtain ⟨l, hl⟩ := List.isPrefixOf_iff_prefix.mp h
  refine ⟨String.mk l, ?_⟩
  apply string_eq_of_data
  rw [String.data_append]
  exact hl.symm

theorem isPrefixOf_data_append (p t : String) :
    p.data.isPrefixOf (p ++ t).data = true := by
  rw [String.data_append]
  exact List.isPrefixOf_iff_prefix.mpr (List.prefix_append p.data t.data)

theorem rt_put_realtime_id (store : List RealtimeLayerEntry) (layer : Nat) (t : String) :
    rt_put store { id := get_realtime_id layer t, realtime_layer := layer, count := 1 } =
      Except.ok ({ id := get_realtime_id layer t, realtime_layer := layer, count := 1 } ::
        store.filter (fun x => !(x.id == get_realtime_id layer t))) := by
  unfold rt_put
  rw [show (get_realtime_id layer t : String) = (toString layer ++ ":") ++ t from rfl]
  rw [isPrefixOf_data_append]
  simp

theorem handle_incoming_event_eq (layer : Nat) (t : String)
    (store : List RealtimeLayerEntry) :
    handle_incoming_event layer t store =
      { id := get_realtime_id layer t, realtime_layer := layer, count := 1 } ::
        store.filter (fun x => !(x.id == get_realtime_id layer t)) := by
  unfold handle_incoming_event
  rw [rt_put_realtime_id]

theorem data_get_realtime_id_zero (t : String) :
    (get_realtime_id 0 t).data = '0' :: ':' :: t.data := by
  rw [show (get_realtime_id 0 t : String) = "0:" ++ t from rfl, String.data_append]
  rfl

theorem data_get_realtime_id_one (t : String) :
    (get_realtime_id 1 t).data = '1' :: ':' :: t.data := by
  rw [show (get_realtime_id 1 t : String) = "1:" ++ t from rfl, String.data_append]
  rfl

theorem get_realtime_id_zero_ne_one (s t : String) :
    get_realtime_id 0 s ≠ get_realtime_id 1 t := by
  intro h
  have h2 := congrArg String.data h
  rw [data_get_realtime_id_zero, data_get_realtime_id_one] at h2
  simp at h2

theorem valid_realtime_id_zero (t : String) :
    is_valid_realtime_id (get_realtime_id 0 t) = true := by
  unfold is_valid_realtime_id
  rw [data_get_realtime_id_zero]
  rfl

theorem valid_realtime_id_one (t : String) :
    is_valid_realtime_id (get_realtime_id 1 t) = true := by
  unfold is_valid_realtime_id
  rw [data_get_realtime_id_one]
  rfl

theorem find_id_filter_id_ne (l : List RealtimeLayerEntry) (s b : String) (h : s ≠ b) :
    (l.filter (fun x => !(x.id == b))).find? (fun x => x.id == s) =
      l.find? (fun x => x.id == s) := by
  induction l with
  | nil => rfl
  | cons a l ih =>
    rw [List.filter_cons]
    cases hab : a.id == b with
    | true =>
      have hb' : a.id = b := beq_iff_eq.mp hab
      have has : (a.id == s) = false := by
        rw [beq_eq_false_iff_ne, hb']
        exact fun hc => h hc.symm
      simp only [hab, Bool.not_true, Bool.false_eq_true, if_false]
      rw [List.find?_cons, has]
      exact ih
    | false =>
      simp only [hab, Bool.not_false, if_true]
      rw [List.find?_cons, List.find?_cons]
      cases has : a.id == s with
      | true => rfl
      | false => exact ih

theorem find_id_delete_layer (l : List RealtimeLayerEntry) (s : String) (layer : Nat)
    (v : RealtimeLayerEntry) (h1 : l.find? (fun x => x.id == s) = some v)
    (h2 : v.realtime_layer ≠ layer) :
    (delete_layer layer l).find? (fun x => x.id == s) = some v := by
  induction l with
  | nil => simp at h1
  | cons a l ih =>
    rw [List.find?_cons] at h1
    unfold delete_layer
    rw [List.filter_cons]
    cases has : a.id == s with
    | true =>
      rw [has] at h1
      have hav : a = v := by
        simpa using h1
      have hlay : (a.realtime_layer == layer) = false := by
        rw [beq_eq_false_iff_ne, hav]
        exact h2
      simp only [hlay, Bool.not_false, if_true]
      rw [List.find?_cons, has]
      exact congrArg some hav
    | false =>
      rw [has] at h1
      have ih' := ih h1
      unfold delete_layer at ih'
      cases hlay : a.realtime_layer == layer with
      | true =>
        simp only [hlay, Bool.not_true, Bool.false_eq_true, if_false]
        exact ih'
      | false =>
        simp only [hlay, Bool.not_false, if_true]
        rw [List.find?_cons, has]
        exact ih'

theorem flip_layer_val_ne (a : Fin 2) : (flip_layer a).val ≠ a.val := by
  revert a
  decide

theorem register_end_active (now_msec : Nat) (cc : ContinuousComputationModel) :
    (register_end_of_batch_job now_msec cc).active_realtime_layer_index =
      cc.active_realtime_layer_index := by
  unfold register_end_of_batch_job
  split <;> rfl

theorem on_incoming_event_realtime (t : String) (st : CCState) :
    (on_incoming_event t st).realtime =
      { id := get_realtime_id 1 t, realtime_layer := 1, count := 1 } ::
        (({ id := get_realtime_id 0 t, realtime_layer := 0, count := 1 } ::
          st.realtime.filter (fun x => !(x.id == get_realtime_id 0 t))).filter
            (fun x => !(x.id == get_realtime_id 1 t))) := by
  unfold on_incoming_event
  rw [handle_incoming_event_eq, handle_incoming_event_eq]

theorem active_layer_id_valid (st : CCState) (t : String) :
    is_valid_realtime_id (get_active_realtime_layer_id st t) = true := by
  have hlt := st.cc.active_realtime_layer_index.isLt
  have h2 : st.cc.active_realtime_layer_index.val = 0 ∨
      st.cc.active_realtime_layer_index.val = 1 := by omega
  unfold get_active_realtime_layer_id
  rcases h2 with h2 | h2 <;> rw [h2]
  · exact valid_realtime_id_zero t
  · exact valid_realtime_id_one t

theorem get_count_eq (st : CCState) (t : String) :
    get_count st t = Except.ok ((ann_get st.ann_store t).getD 0 +
      ((st.realtime.find? (fun e =>
          e.id == get_realtime_id st.cc.active_realtime_layer_index.val t)).map
        RealtimeLayerEntry.count).getD 0) := by
  unfold get_count
  unfold rt_get
  rw [if_pos (active_layer_id_valid st t)]
  cases hm : ann_get st.ann_store t <;>
    cases hf : st.realtime.find? (fun e =>
        e.id == get_realtime_id st.cc.active_realtime_layer_index.val t) <;>
      simp [hm, hf, get_active_realtime_layer_id, Except.bind, Option.getD]

theorem get_count_congr (st1 st2 : CCState) (t : String)
    (h1 : st1.realtime = st2.realtime) (h2 : st1.ann_store = st2.ann_store)
    (h3 : st1.cc.active_realtime_layer_index = st2.cc.active_realtime_layer_index) :
    get_count st1 t = get_count st2 t := by
  unfold get_count rt_get get_active_realtime_layer_id
  rw [h1, h2, h3]

/-- C3: for every target id, `get_count` (the computation's query) never
raises an error and returns the integer sum of the authoritative
aggregate record for the target and the count of the realtime layer entry
at (active realtime layer index, target), each contributing zero when the
record is missing. -/
theorem claim_C3 (st : CCState) (t : String) :
    get_count st t = Except.ok ((ann_get st.ann_store t).getD 0 +
      ((st.realtime.find? (fun e =>
          e.id == get_realtime_id st.cc.active_realtime_layer_index.val t)).map
        RealtimeLayerEntry.count).getD 0) :=
  get_count_eq st t

/-- C4: calling `start_computation` on a computation whose status is
RUNNING fails with the "already running" error naming the computation and
returns the state unchanged (record, timestamps and realtime layer
entries included). -/
theorem claim_C4 (st : CCState) (now_msec : Nat)
    (h : st.cc.status_code = CCStatus.running) :
    start_computation now_msec st =
      (st, some ("Attempted to start computation " ++ st.name ++
        ", which is already running.")) := by
  unfold start_computation
  rw [if_neg]
  rw [h]
  intro hc
  exact CCStatus.noConfusion hc

theorem claim_C4_witness :
    start_computation 30 sample_running_state =
      (sample_running_state,
       some "Attempted to start computation StartExplorationEventCounter, which is already running.") :=
  claim_C4 sample_running_state 30 rfl

/-- C9: for every designated abstract base manager class, `create_new`
fails with a descriptive error naming the offending class, and the job
record store is unchanged (no record is created by the failed call). -/
theorem claim_C9 (cls : JobManagerClass) (new_id : String) (jobs : List JobModel)
    (h : cls ∈ ABSTRACT_BASE_CLASSES) :
    create_new cls new_id jobs =
      (jobs, Except.error ("Tried to directly create a job using the abstract base " ++
        "manager class " ++ class_name cls ++ ", which is not allowed.")) := by
  unfold create_new
  rw [if_pos h]

theorem claim_C9_witness :
    create_new JobManagerClass.BaseJobManager "job_id_1" [] =
      ([], Except.error ("Tried to directly create a job using the abstract base " ++
        "manager class BaseJobManager, which is not allowed.")) :=
  claim_C9 JobManagerClass.BaseJobManager "job_id_1" [] (by decide)

/-- C7: when the batch job of a continuous computation fails, the manager
emits the failure log line and deletes no realtime layer entry; when it is
canceled the behavior is the same (log line emitted, realtime layer
kept), and in both cases every query returns exactly what it returned
before, so the previously computed aggregate remains queryable. -/
theorem claim_C7 (st : CCState) (now_msec : Nat) :
    (on_batch_job_failure now_msec st).1.realtime = st.realtime ∧
    (on_batch_job_canceled now_msec st).1.realtime = st.realtime ∧
    (on_batch_job_failure now_msec st).2 =
      { level := LogLevel.error, message := "Job " ++ st.name ++ " failed." } ∧
    (on_batch_job_canceled now_msec st).2 =
      { level := LogLevel.info, message := "Job " ++ st.name ++ " canceled." } ∧
    (∀ t, get_count (on_batch_job_failure now_msec st).1 t = get_count st t) ∧
    (∀ t, get_count (on_batch_job_canceled now_msec st).1 t = get_count st t) := by
  refine ⟨rfl, rfl, rfl, rfl, ?_, ?_⟩ <;>
    intro t <;>
      exact get_count_congr _ _ t rfl rfl (register_end_active now_msec st.cc)

/-- C1: when the batch job of a RUNNING continuous computation completes,
the manager deletes every realtime layer entry of the generation that was
active during the batch run, leaves every entry of the newly-active
generation in the store, and switches the active index; and after a
subsequent stop, both realtime layer generations for the computation are
absent from the store. -/
theorem claim_C1 (st : CCState) (t2 t3 : Nat) (job : BatchJob)
    (hrun : st.cc.status_code = CCStatus.running)
    (hjob : st.batch_job = some job) :
    (∀ e ∈ (on_batch_job_completion t2 st).realtime,
        e.realtime_layer ≠ st.cc.active_realtime_layer_index.val) ∧
    (∀ e ∈ st.realtime,
        e.realtime_layer = (flip_layer st.cc.active_realtime_layer_index).val →
          e ∈ (on_batch_job_completion t2 st).realtime) ∧
    (on_batch_job_completion t2 st).cc.active_realtime_layer_index =
      flip_layer st.cc.active_realtime_layer_index ∧
    (stop_computation t3 (on_batch_job_completion t2 st)).realtime = [] := by
  have hre : (on_batch_job_completion t2 st).realtime =
      delete_layer st.cc.active_realtime_layer_index.val st.realtime := by
    unfold on_batch_job_completion
    rw [hjob]
  have hcc : (on_batch_job_completion t2 st).cc =
      register_end_of_batch_job t2
        { st.cc with
            active_realtime_layer_index := flip_layer st.cc.active_realtime_layer_index,
            last_finished_msec := some t2 } := by
    unfold on_batch_job_completion
    rw [hjob]
  refine ⟨?_, ?_, ?_, rfl⟩
  · intro e he
    rw [hre] at he
    unfold delete_layer at he
    have := (List.mem_filter.mp he).2
    simpa using this
  · intro e he hl
    rw [hre]
    unfold delete_layer
    refine List.mem_filter.mpr ⟨he, ?_⟩
    have hne : e.realtime_layer ≠ st.cc.active_realtime_layer_index.val := by
      rw [hl]
      exact flip_layer_val_ne st.cc.active_realtime_layer_index
    simpa using hne
  · rw [hcc, register_end_active]

theorem claim_C1_witness :
    (∀ e ∈ (on_batch_job_completion 30 sample_running_state).realtime,
        e.realtime_layer ≠ sample_running_state.cc.active_realtime_layer_index.val) ∧
    (∀ e ∈ sample_running_state.realtime,
        e.realtime_layer =
            (flip_layer sample_running_state.cc.active_realtime_layer_index).val →
          e ∈ (on_batch_job_completion 30 sample_running_state).realtime) ∧
    (on_batch_job_completion 30 sample_running_state).cc.active_realtime_layer_index =
      flip_layer sample_running_state.cc.active_realtime_layer_index ∧
    (stop_computation 40 (on_batch_job_completion 30 sample_running_state)).realtime = [] :=
  claim_C1 sample_running_state 30 40 { queued_msec := 20 } rfl rfl

/-- C10: on an idle computation, `start_computation` succeeds, enqueues the
first batch job with the current time as cutoff, deletes every realtime
layer entry of the previously-inactive generation (the one the next
switchover will make active), retains every entry of the previously-active
generation, and does not change the active index. -/
theorem claim_C10 (st : CCState) (now_msec : Nat)
    (h : st.cc.status_code = CCStatus.idle) :
    (start_computation now_msec st).2 = none ∧
    (start_computation now_msec st).1.batch_job = some { queued_msec := now_msec } ∧
    (∀ e ∈ (start_computation now_msec st).1.realtime,
        e.realtime_layer ≠ (flip_layer st.cc.active_realtime_layer_index).val) ∧
    (∀ e ∈ st.realtime,
        e.realtime_layer = st.cc.active_realtime_layer_index.val →
          e ∈ (start_computation now_msec st).1.realtime) ∧
    (start_computation now_msec st).1.cc.active_realtime_layer_index =
      st.cc.active_realtime_layer_index := by
  have hs : start_computation now_msec st =
      ({ st with
          cc := { st.cc with
            status_code := CCStatus.running,
            last_started_msec := some now_msec },
          realtime := delete_layer (flip_layer st.cc.active_realtime_layer_index).val
            st.realtime,
          batch_job := some { queued_msec := now_msec } }, none) := by
    unfold start_computation
    rw [if_pos h]
  refine ⟨by rw [hs], by rw [hs], ?_, ?_, by rw [hs]⟩
  · intro e he
    rw [hs] at he
    unfold delete_layer at he
    have := (List.mem_filter.mp he).2
    simpa using this
  · intro e he hl
    rw [hs]
    unfold delete_layer
    refine List.mem_filter.mpr ⟨he, ?_⟩
    have hne : e.realtime_layer ≠ (flip_layer st.cc.active_realtime_layer_index).val := by
      rw [hl]
      intro hc
      exact flip_layer_val_ne st.cc.active_realtime_layer_index hc.symm
    simpa using hne

theorem claim_C10_witness :
    (start_computation 20 sample_idle_state).2 = none ∧
    (start_computation 20 sample_idle_state).1.batch_job = some { queued_msec := 20 } ∧
    (∀ e ∈ (start_computation 20 sample_idle_state).1.realtime,
        e.realtime_layer ≠ (flip_layer sample_idle_state.cc.active_realtime_layer_index).val) ∧
    (∀ e ∈ sample_idle_state.realtime,
        e.realtime_layer = sample_idle_state.cc.active_realtime_layer_index.val →
          e ∈ (start_computation 20 sample_idle_state).1.realtime) ∧
    (start_computation 20 sample_idle_state).1.cc.active_realtime_layer_index =
      sample_idle_state.cc.active_realtime_layer_index :=
  claim_C10 sample_idle_state 20 rfl

/-- C2 counterexample: an entity created exactly at the enqueue time is
not created strictly before the job was enqueued, yet it does contribute
to the batch output: with one start event at time 5 and a job enqueued at
time 5 the output counts 1, while the output over the entities created
strictly before the enqueue time is empty.  This refutes the claim that
the contributing entities are exactly those created strictly before the
job was enqueued. -/
theorem claim_C2_counterexample :
    batch_job_result 5 [sample_event_at 5] = [("exp_id", 1)] ∧
    [sample_event_at 5].filter (fun x => x.created_on < 5) = [] ∧
    batch_job_result 5 ([sample_event_at 5].filter (fun x => x.created_on < 5)) = [] := by
  decide

/-- C2 (amended): the entities contributing to a batch job's output are
exactly those created at or before the time the job was enqueued: the
output equals the output computed over only those entities, and an entity
created strictly after the enqueue time (even if it exists by the time
the job executes) contributes nothing. -/
theorem claim_C2 (queued_msec : Nat) (log : List EventLogEntry) (e : EventLogEntry)
    (h : queued_msec < e.created_on) :
    batch_job_result queued_msec (log ++ [e]) = batch_job_result queued_msec log ∧
    batch_job_result queued_msec log =
      batch_job_result queued_msec
        (log.filter (fun x => entity_created_before_job_queued queued_msec x)) := by
  constructor
  · have hm : batch_map queued_msec (log ++ [e]) = batch_map queued_msec log := by
      unfold batch_map
      rw [List.filter_append]
      have he : [e].filter (entity_created_before_job_queued queued_msec) = [] := by
        rw [List.filter_cons]
        have hfalse : entity_created_before_job_queued queued_msec e = false := by
          unfold entity_created_before_job_queued
          simpa using Nat.not_le.mpr h
        simp [hfalse]
      rw [he, List.append_nil]
    unfold batch_job_result
    rw [hm]
  · have hm : batch_map queued_msec
        (log.filter (fun x => entity_created_before_job_queued queued_msec x)) =
        batch_map queued_msec log := by
      unfold batch_map
      rw [List.filter_filter]
      congr 1
      apply List.filter_congr
      intro x _
      cases hx : entity_created_before_job_queued queued_msec x <;> simp [hx]
    unfold batch_job_result
    rw [hm]

theorem claim_C2_witness :
    (5 < 6) ∧
    batch_job_result 5 ([sample_event_at 3] ++ [sample_event_at 6]) =
      batch_job_result 5 [sample_event_at 3] ∧
    batch_job_result 5 [sample_event_at 3] =
      batch_job_result 5 ([sample_event_at 3].filter
        (fun x => entity_created_before_job_queued 5 x)) :=
  ⟨by decide,
   claim_C2 5 [sample_event_at 3] (sample_event_at 6) (by decide)⟩

theorem find_after_event_zero (st : CCState) (t : String) :
    (on_incoming_event t st).realtime.find? (fun e => e.id == get_realtime_id 0 t) =
      some { id := get_realtime_id 0 t, realtime_layer := 0, count := 1 } := by
  have hne10 : (get_realtime_id 1 t == get_realtime_id 0 t) = false := by
    rw [beq_eq_false_iff_ne]
    exact fun hc => get_realtime_id_zero_ne_one t t hc.symm
  rw [on_incoming_event_realtime]
  simp only [List.find?_cons, hne10]
  rw [find_id_filter_id_ne _ _ _ (get_realtime_id_zero_ne_one t t)]
  simp [List.find?_cons]

theorem find_after_event_one (st : CCState) (t : String) :
    (on_incoming_event t st).realtime.find? (fun e => e.id == get_realtime_id 1 t) =
      some { id := get_realtime_id 1 t, realtime_layer := 1, count := 1 } := by
  rw [on_incoming_event_realtime]
  simp [List.find?_cons]

theorem find_after_event_other (st : CCState) (t s : String)
    (h0 : s ≠ get_realtime_id 0 t) (h1 : s ≠ get_realtime_id 1 t) :
    (on_incoming_event t st).realtime.find? (fun e => e.id == s) =
      st.realtime.find? (fun e => e.id == s) := by
  have hne1 : (get_realtime_id 1 t == s) = false := by
    rw [beq_eq_false_iff_ne]
    exact fun hc => h1 hc.symm
  have hne0 : (get_realtime_id 0 t == s) = false := by
    rw [beq_eq_false_iff_ne]
    exact fun hc => h0 hc.symm
  rw [on_incoming_event_realtime]
  simp only [List.find?_cons, hne1]
  rw [find_id_filter_id_ne _ _ _ h1]
  simp only [List.find?_cons, hne0]
  rw [find_id_filter_id_ne _ _ _ h0]

theorem start_computation_eq (now_msec : Nat) (st : CCState)
    (h : st.cc.status_code = CCStatus.idle) :
    start_computation now_msec st =
      ({ st with
          cc := { st.cc with
            status_code := CCStatus.running,
            last_started_msec := some now_msec },
          realtime := delete_layer (flip_layer st.cc.active_realtime_layer_index).val
            st.realtime,
          batch_job := some { queued_msec := now_msec } }, none) := by
  unfold start_computation
  rw [if_pos h]

/-- C5 counterexample: with the active realtime layer index 0 and an
empty realtime store, handling one incoming event creates an entry in
layer 1 (the other generation) as well, so `on_incoming_event` does not
apply the event exactly to the entry of the active generation and does
modify the other generation. -/
theorem claim_C5_counterexample :
    sample_empty_state.cc.active_realtime_layer_index.val = 0 ∧
    sample_empty_state.realtime.find?
      (fun e => e.id == get_realtime_id 1 "exp_id") = none ∧
    (on_incoming_event "exp_id" sample_empty_state).realtime.find?
        (fun e => e.id == get_realtime_id 1 "exp_id") =
      some { id := "1:exp_id", realtime_layer := 1, count := 1 } := by
  decide

/-- C5 (amended): for every incoming event, `on_incoming_event` records
the event in the realtime layer entry of each of the two generations
(layer 0 and layer 1) for the target id, creating or overwriting each
entry, rather than only the entry of the active generation; entries of
every other id are unchanged. -/
theorem claim_C5 (st : CCState) (t : String) :
    (on_incoming_event t st).realtime.find? (fun e => e.id == get_realtime_id 0 t) =
      some { id := get_realtime_id 0 t, realtime_layer := 0, count := 1 } ∧
    (on_incoming_event t st).realtime.find? (fun e => e.id == get_realtime_id 1 t) =
      some { id := get_realtime_id 1 t, realtime_layer := 1, count := 1 } ∧
    (∀ s : String, s ≠ get_realtime_id 0 t → s ≠ get_realtime_id 1 t →
      (on_incoming_event t st).realtime.find? (fun e => e.id == s) =
        st.realtime.find? (fun e => e.id == s)) :=
  ⟨find_after_event_zero st t, find_after_event_one st t,
   fun s h0 h1 => find_after_event_other st t s h0 h1⟩

theorem claim_C5_witness :
    (on_incoming_event "exp_id" sample_idle_state).realtime.find?
        (fun e => e.id == get_realtime_id 0 "exp_id") =
      some { id := get_realtime_id 0 "exp_id", realtime_layer := 0, count := 1 } ∧
    (on_incoming_event "exp_id" sample_idle_state).realtime.find?
        (fun e => e.id == get_realtime_id 1 "exp_id") =
      some { id := get_realtime_id 1 "exp_id", realtime_layer := 1, count := 1 } ∧
    (on_incoming_event "exp_id" sample_idle_state).realtime.find?
        (fun e => e.id == "other_id") =
      sample_idle_state.realtime.find? (fun e => e.id == "other_id") :=
  ⟨(claim_C5 sample_idle_state "exp_id").1,
   (claim_C5 sample_idle_state "exp_id").2.1,
   (claim_C5 sample_idle_state "exp_id").2.2 "other_id" (by decide) (by decide)⟩

/-- C6: an event handled before the computation's first batch job has
started (idle record, no batch job in flight) is recorded in both
realtime layer generations, and therefore survives the deletion performed
by a subsequent `start_computation`: the entry in the still-active
generation is intact after the start. -/
theorem claim_C6 (st : CCState) (t : String) (now_msec : Nat)
    (h1 : st.cc.status_code = CCStatus.idle) (h2 : st.batch_job = none) :
    (on_incoming_event t st).realtime.find? (fun e => e.id == get_realtime_id 0 t) =
      some { id := get_realtime_id 0 t, realtime_layer := 0, count := 1 } ∧
    (on_incoming_event t st).realtime.find? (fun e => e.id == get_realtime_id 1 t) =
      some { id := get_realtime_id 1 t, realtime_layer := 1, count := 1 } ∧
    (start_computation now_msec (on_incoming_event t st)).1.realtime.find?
        (fun e => e.id == get_realtime_id st.cc.active_realtime_layer_index.val t) =
      some { id := get_realtime_id st.cc.active_realtime_layer_index.val t,
             realtime_layer := st.cc.active_realtime_layer_index.val, count := 1 } := by
  refine ⟨find_after_event_zero st t, find_after_event_one st t, ?_⟩
  rw [start_computation_eq now_msec (on_incoming_event t st) h1]
  show (delete_layer (flip_layer st.cc.active_realtime_layer_index).val
      (on_incoming_event t st).realtime).find?
      (fun e => e.id == get_realtime_id st.cc.active_realtime_layer_index.val t) =
    some { id := get_realtime_id st.cc.active_realtime_layer_index.val t,
           realtime_layer := st.cc.active_realtime_layer_index.val, count := 1 }
  have hlt := st.cc.active_realtime_layer_index.isLt
  have hv : st.cc.active_realtime_layer_index.val = 0 ∨
      st.cc.active_realtime_layer_index.val = 1 := by omega
  rcases hv with hv | hv
  · have ha : st.cc.active_realtime_layer_index = (0 : Fin 2) := Fin.ext hv
    rw [ha]
    exact find_id_delete_layer _ _ _ _ (find_after_event_zero st t)
      (show (0 : Fin 2).val ≠ (flip_layer 0).val by decide)
  · have ha : st.cc.active_realtime_layer_index = (1 : Fin 2) := Fin.ext hv
    rw [ha]
    exact find_id_delete_layer _ _ _ _ (find_after_event_one st t)
      (show (1 : Fin 2).val ≠ (flip_layer 1).val by decide)

theorem claim_C6_witness :
    (on_incoming_event "exp_id" sample_idle_state).realtime.find?
        (fun e => e.id == get_realtime_id 0 "exp_id") =
      some { id := get_realtime_id 0 "exp_id", realtime_layer := 0, count := 1 } ∧
    (on_incoming_event "exp_id" sample_idle_state).realtime.find?
        (fun e => e.id == get_realtime_id 1 "exp_id") =
      some { id := get_realtime_id 1 "exp_id", realtime_layer := 1, count := 1 } ∧
    (start_computation 20 (on_incoming_event "exp_id" sample_idle_state)).1.realtime.find?
        (fun e => e.id ==
          get_realtime_id sample_idle_state.cc.active_realtime_layer_index.val "exp_id") =
      some { id := get_realtime_id
               sample_idle_state.cc.active_realtime_layer_index.val "exp_id",
             realtime_layer := sample_idle_state.cc.active_realtime_layer_index.val,
             count := 1 } :=
  claim_C6 sample_idle_state "exp_id" 20 rfl rfl

theorem data_get_realtime_id (layer : Nat) (t : String) :
    (get_realtime_id layer t).data = (toString layer).data ++ ':' :: t.data := by
  unfold get_realtime_id
  rw [String.data_append, String.data_append, List.append_assoc]
  rfl

theorem exists_form_of_valid {s : String} (h : is_valid_realtime_id s = true) :
    ∃ (layer : Fin 2) (t : String), s = get_realtime_id layer.val t := by
  unfold is_valid_realtime_id at h
  rw [Bool.or_eq_true, beq_iff_eq, beq_iff_eq] at h
  rcases h with h | h
  · refine ⟨0, String.mk (s.data.drop 2), ?_⟩
    show s = get_realtime_id 0 (String.mk (s.data.drop 2))
    apply string_eq_of_data
    rw [data_get_realtime_id_zero]
    have hsplit := List.take_append_drop 2 s.data
    rw [h] at hsplit
    exact hsplit.symm
  · refine ⟨1, String.mk (s.data.drop 2), ?_⟩
    show s = get_realtime_id 1 (String.mk (s.data.drop 2))
    apply string_eq_of_data
    rw [data_get_realtime_id_one]
    have hsplit := List.take_append_drop 2 s.data
    rw [h] at hsplit
    exact hsplit.symm

/-- C8: an entry whose id is not of the two-part form for its own
realtime layer cannot be stored: `rt_put` fails with the fatal
layer-mismatch error; and fetching with an id that is not of the
two-part form (a layer index of 0 or 1, a colon, and a target entity id)
fails with the invalid-id `ValueError`, for every such id string. -/
theorem claim_C8 :
    (∀ (store : List RealtimeLayerEntry) (e : RealtimeLayerEntry),
        (∀ t : String, e.id ≠ get_realtime_id e.realtime_layer t) →
        rt_put store e = Except.error ("Realtime layer " ++ toString e.realtime_layer ++
          " does not match realtime id " ++ e.id)) ∧
    (∀ (store : List RealtimeLayerEntry) (s : String),
        (∀ (layer : Fin 2) (t : String), s ≠ get_realtime_id layer.val t) →
        rt_get store s = Except.error ("Invalid realtime id: " ++ s)) := by
  constructor
  · intro store e hmis
    have hcheck : ¬((toString e.realtime_layer ++ ":").data.isPrefixOf e.id.data = true) := by
      intro hpre
      obtain ⟨t, ht⟩ := exists_append_of_isPrefixOf hpre
      exact hmis t ht
    unfold rt_put
    rw [if_neg hcheck]
  · intro store s hmis
    have hcheck : ¬(is_valid_realtime_id s = true) := by
      intro hval
      obtain ⟨layer, t, ht⟩ := exists_form_of_valid hval
      exact hmis layer t ht
    unfold rt_get
    rw [if_neg hcheck]

theorem claim_C8_witness :
    rt_put [] { id := "invalid_realtime_model_id", realtime_layer := 1, count := 1 } =
      Except.error "Realtime layer 1 does not match realtime id invalid_realtime_model_id" ∧
    rt_get [] "2:x" = Except.error "Invalid realtime id: 2:x" := by
  constructor
  · exact claim_C8.1 []
      { id := "invalid_realtime_model_id", realtime_layer := 1, count := 1 }
      (by
        intro t ht
        have hd := congrArg String.data ht
        rw [data_get_realtime_id] at hd
        have hhead : (some 'i' : Option Char) = some '1' := congrArg List.head? hd
        exact absurd (Option.some.inj hhead) (by decide))
  · exact claim_C8.2 [] "2:x"
      (by
        intro layer t ht
        have hlt := layer.isLt
        have hv : layer.val = 0 ∨ layer.val = 1 := by omega
        rcases hv with hv | hv <;> rw [hv] at ht
        · have hd := congrArg String.data ht
          rw [data_get_realtime_id_zero] at hd
          have hhead : (some '2' : Option Char) = some '0' := congrArg List.head? hd
          exact absurd (Option.some.inj hhead) (by decide)
        · have hd := congrArg String.data ht
          rw [data_get_realtime_id_one] at hd
          have hhead : (some '2' : Option Char) = some '1' := congrArg List.head? hd
          exact absurd (Option.some.inj hhead) (by decide))
